import Mathlib

/-!
Verification of the MLG risk-management position sizer (`src/app.py`).

The Python program is embedded shallowly:

* pandas price series become `List (ℕ × ℚ)` (date index, closing price);
  floats become exact rationals `ℚ`;
* the two market-data providers (investpy / yfinance) are oracles supplied
  as function arguments: the raw outcome of one provider call is
  `Except Unit (Option DataFrame)`, where `.error ()` models a raised
  exception, `.ok none` models "no result" (empty search, `None` frame),
  and `.ok (some df)` models a returned data frame;
* `pd.Series.sort_index()` becomes a stable insertion sort on the date key;
* the Streamlit button handler (lines 183-219 of `app.py`) becomes the
  pure function `calculate_button_handler` returning an `Outcome`.
-/

namespace PositionSizer

/-- A price series: (date, close) pairs, as produced by the fetchers. -/
abbrev Series := List (ℕ × ℚ)

/-- Ordering of series rows by date (the pandas index). -/
def dateLE : ℕ × ℚ → ℕ × ℚ → Prop := fun a b => a.1 ≤ b.1

instance : DecidableRel dateLE := fun a b => Nat.decLe a.1 b.1

instance : IsTotal (ℕ × ℚ) dateLE := ⟨fun a b => Nat.le_total a.1 b.1⟩

instance : IsTrans (ℕ × ℚ) dateLE := ⟨fun _ _ _ h h' => Nat.le_trans h h'⟩

/-- A pandas data frame as the provider returns it: a date index plus named
numeric columns (only the price columns are relevant to the program). -/
structure DataFrame where
  dates : List ℕ
  cols : List (String × List ℚ)
deriving DecidableEq

/-- `df.empty` of pandas. -/
def DataFrame.emptyFrame (df : DataFrame) : Bool := df.dates.isEmpty

/-- Column lookup, `"name" in df.columns` / `df["name"]`. -/
def DataFrame.getCol (df : DataFrame) (c : String) : Option (List ℚ) :=
  (df.cols.find? (fun p => p.1 == c)).map (fun p => p.2)

/-- `df[col]` paired with the date index and sorted ascending by date
(`s.index = pd.to_datetime(s.index); s = s.sort_index()`). -/
def seriesOfCol (dates : List ℕ) (vals : List ℚ) : Series :=
  List.insertionSort dateLE (dates.zip vals)

/-- Raw outcome of one provider call: an exception, no data, or a frame. -/
abbrev RawResult := Except Unit (Option DataFrame)

/-- `fetch_prices_investing` (app.py lines 23-66): guarded by
`HAS_INVESTPY`; any exception, empty search result, `None`/empty frame or
missing `Close` column yields `None`; otherwise the `Close` column sorted
by date. -/
def fetch_prices_investing (hasInvestpy : Bool) (raw : RawResult) :
    Option Series :=
  if !hasInvestpy then none
  else
    match raw with
    | .error _ => none
    | .ok none => none
    | .ok (some df) =>
      if df.emptyFrame then none
      else
        match df.getCol "Close" with
        | none => none
        | some vals => some (seriesOfCol df.dates vals)

/-- `fetch_prices_yf` (app.py lines 69-86): any exception or `None`/empty
frame yields `None`; otherwise `Adj Close` if present, else `Close`
(a missing `Close` raises a `KeyError`, caught by the bare `except`),
sorted by date. -/
def fetch_prices_yf (raw : RawResult) : Option Series :=
  match raw with
  | .error _ => none
  | .ok none => none
  | .ok (some df) =>
    if df.emptyFrame then none
    else
      match df.getCol "Adj Close" with
      | some vals => some (seriesOfCol df.dates vals)
      | none =>
        match df.getCol "Close" with
        | some vals => some (seriesOfCol df.dates vals)
        | none => none

/-- The acceptance test of `fetch_prices_resilient`:
`s is not None and len(s) >= 12`. -/
def usable : Option Series → Bool
  | none => false
  | some s => 12 ≤ s.length

/-- A provider oracle for Investing.com: the raw outcome of the call made
for a given (ticker, country, lookback_days). -/
abbrev InvOracle := String → String → ℕ → RawResult

/-- A provider oracle for Yahoo Finance: the raw outcome of the call made
for a given (ticker, period). -/
abbrev YfOracle := String → String → RawResult

/-- `fetch_prices_resilient` (app.py lines 89-104): try Investing.com with
the requested lookback window; if the result is unusable, try Yahoo
Finance with the fixed period `"2y"`; otherwise give up with
`(None, "None")`. -/
def fetch_prices_resilient (inv : InvOracle) (yf : YfOracle)
    (hasInvestpy : Bool) (ticker country : String) (lookback_days : ℕ) :
    Option Series × String :=
  let s1 := fetch_prices_investing hasInvestpy (inv ticker country lookback_days)
  if usable s1 then (s1, "Investing.com")
  else
    let s2 := fetch_prices_yf (yf ticker "2y")
    if usable s2 then (s2, "Yahoo Finance")
    else (none, "None")

/-- `fetch_prices_resilient` run against stateful providers whose k-th call
returns `seq k`: the body of `fetch_prices_resilient` contains exactly one
call to each provider fetcher, so only index 0 of each trace is consulted. -/
def fetch_prices_resilient_seq (invSeq : ℕ → RawResult)
    (yfSeq : ℕ → RawResult) (hasInvestpy : Bool) (ticker country : String)
    (lookback_days : ℕ) : Option Series × String :=
  fetch_prices_resilient (fun _ _ _ => invSeq 0) (fun _ _ => yfSeq 0)
    hasInvestpy ticker country lookback_days

/-- Day-over-day fractional changes, `pct_change().dropna()`:
`(p i+1 - p i) / p i` for consecutive entries. -/
def pctChanges : List ℚ → List ℚ
  | [] => []
  | [_] => []
  | a :: b :: rest => (b - a) / a :: pctChanges (b :: rest)

/-- `avg_abs_move_pct` (app.py lines 110-118): needs at least `window + 1`
closes; otherwise the mean of the absolute percentage changes over the
last `window + 1` closes, in percent. -/
def avg_abs_move_pct (closes : List ℚ) (window : ℕ) : Option ℚ :=
  if closes.length < window + 1 then none
  else
    let recent := closes.drop (closes.length - (window + 1))
    let changes := (pctChanges recent).map (fun r => r * 100)
    some ((changes.map (fun x => |x|)).sum / (changes.length : ℚ))

/-- Default `base_pct` of `position_pct_from_rule`. -/
def base_pct : ℚ := 30

/-- Default `per_step_reduce` of `position_pct_from_rule`. -/
def per_step_reduce : ℚ := 3 / 2

/-- Default `step_pct` of `position_pct_from_rule`. -/
def step_pct : ℚ := 1 / 10

/-- Default `vol_penalty_per_point` of `position_pct_from_rule`. -/
def vol_penalty_per_point : ℚ := 3

/-- `position_pct_from_rule` (app.py lines 121-147) at its default
constants, as invoked by the handler: returns
`(final_pct, reduction_from_move, reduction_from_sliders)`. -/
def position_pct_from_rule (avg_move_pct : ℚ) (general_vol company_vol : ℤ) :
    ℚ × ℚ × ℚ :=
  let reduction_from_move := per_step_reduce * (avg_move_pct / step_pct)
  let reduction_from_sliders :=
    vol_penalty_per_point * ((general_vol : ℚ) + (company_vol : ℚ))
  let final_pct := base_pct - reduction_from_move - reduction_from_sliders
  (max 0 (min 100 final_pct), reduction_from_move, reduction_from_sliders)

/-- `pos_eur = portfolio_size * (final_pct / 100.0)` (app.py line 211). -/
def pos_eur (portfolio_size final_pct : ℚ) : ℚ :=
  portfolio_size * (final_pct / 100)

/-- The sizing formula as the specification words it: clamp to `[0, 100]`
of base 30 minus 1.5 per 0.10 of the average move minus 3 per rating
point. -/
def specFinalPercent (m : ℚ) (g c : ℤ) : ℚ :=
  max 0 (min 100 (30 - (3 / 2) * (m / (1 / 10)) - 3 * ((g : ℚ) + (c : ℚ))))

/-- The metric as the specification words it: the mean of the absolute
day-over-day percentage changes over the last 11 closes (10 returns),
expressed in percent. -/
def specAvgAbsMove (closes : List ℚ) : ℚ :=
  let last11 := closes.drop (closes.length - 11)
  let rets := pctChanges last11
  ((rets.map (fun r => |r| * 100)).sum) / 10

/-- Python's `str.strip()` on the character list: drop whitespace from
both ends. -/
def stripChars (l : List Char) : List Char :=
  ((l.dropWhile Char.isWhitespace).reverse.dropWhile Char.isWhitespace).reverse

/-- `ticker_symbol.strip().upper()` (app.py line 186). -/
def normalizeTicker (s : String) : String :=
  ⟨(stripChars s.data).map Char.toUpper⟩

/-- Outcome of one press of the "Calculate Position Size" button
(app.py lines 183-219): the two `st.error` branches and the success path
with everything the success path renders. -/
inductive Outcome where
  | notEnoughData : Outcome
  | metricError : Outcome
  | success (src : String) (avgMove finalPct redMove redSliders posEur : ℚ) :
      Outcome
deriving DecidableEq

/-- Whether an outcome is the success path. -/
def Outcome.isSuccess : Outcome → Bool
  | .success _ _ _ _ _ _ => true
  | _ => false

/-- The button handler (app.py lines 183-219): fetch prices for the
stripped, upper-cased ticker, report an error on missing or short data,
otherwise compute the metric, the rule and the currency amount. -/
def calculate_button_handler (inv : InvOracle) (yf : YfOracle)
    (hasInvestpy : Bool) (ticker_symbol : String) (portfolio_size : ℚ)
    (general_vol company_vol : ℤ) : Outcome :=
  let r := fetch_prices_resilient inv yf hasInvestpy
    (normalizeTicker ticker_symbol) "united states" 365
  match r.1 with
  | none => .notEnoughData
  | some prices =>
    if prices.length < 11 then .notEnoughData
    else
      match avg_abs_move_pct (prices.map Prod.snd) 10 with
      | none => .metricError
      | some avg_move =>
        let t := position_pct_from_rule avg_move general_vol company_vol
        .success r.2 avg_move t.1 t.2.1 t.2.2 (pos_eur portfolio_size t.1)

/-- The spec's well-formedness of a `PriceSeries`: strictly increasing by
date, every price positive. -/
def wellFormedSeries (s : Series) : Prop :=
  s.Pairwise (fun a b => a.1 < b.1) ∧ ∀ p ∈ s, 0 < p.2

/-- Well-formedness of a provider frame: whichever column is read, the
dated rows are strictly increasing by date and the values positive. -/
def wellFormedFrame (df : DataFrame) : Prop :=
  ∀ q ∈ df.cols, (df.dates.zip q.2).Pairwise (fun a b => a.1 < b.1) ∧
    ∀ v ∈ q.2, 0 < v

/-- A well-behaved 12-row frame with a constant close of 1, used as
concrete provider data in witnesses. -/
def goodFrame : DataFrame :=
  ⟨[0, 1, 2, 3, 4, 5, 6, 7, 8, 9, 10, 11],
    [("Close", [1, 1, 1, 1, 1, 1, 1, 1, 1, 1, 1, 1])]⟩

/-- The series `goodFrame` yields. -/
def goodSeries : Series :=
  [(0, 1), (1, 1), (2, 1), (3, 1), (4, 1), (5, 1), (6, 1), (7, 1), (8, 1),
    (9, 1), (10, 1), (11, 1)]

/-- A frame whose `Close` column contains a non-positive price. -/
def badValueFrame : DataFrame :=
  ⟨[0, 1, 2], [("Close", [-1, 1, 1])]⟩

/-! ### Helper lemmas -/

theorem pctChanges_length : ∀ l : List ℚ, (pctChanges l).length = l.length - 1
  | [] => rfl
  | [_] => rfl
  | a :: b :: rest => by
    simp [pctChanges, pctChanges_length (b :: rest)]

theorem clamp_le_clamp {x y : ℚ} (h : x ≤ y) :
    max 0 (min 100 x) ≤ max 0 (min 100 y) :=
  max_le_max le_rfl (min_le_min le_rfl h)

theorem resilient_fst_some_length {inv : InvOracle} {yf : YfOracle}
    {hinv : Bool} {t ctry : String} {lb : ℕ} {s : Series}
    (h : (fetch_prices_resilient inv yf hinv t ctry lb).1 = some s) :
    12 ≤ s.length := by
  simp only [fetch_prices_resilient] at h
  by_cases h1 : usable (fetch_prices_investing hinv (inv t ctry lb))
  · rw [if_pos h1] at h
    have hfe : fetch_prices_investing hinv (inv t ctry lb) = some s := h
    rw [hfe] at h1
    simpa [usable] using h1
  · rw [if_neg h1] at h
    by_cases h2 : usable (fetch_prices_yf (yf t "2y"))
    · rw [if_pos h2] at h
      have hfe : fetch_prices_yf (yf t "2y") = some s := h
      rw [hfe] at h2
      simpa [usable] using h2
    · rw [if_neg h2] at h
      simp at h

theorem avg_abs_move_pct_isSome {closes : List ℚ}
    (h : 11 ≤ closes.length) : avg_abs_move_pct closes 10 ≠ none := by
  have hcond : ¬ (closes.length < 10 + 1) := by omega
  simp only [avg_abs_move_pct, if_neg hcond]
  exact Option.some_ne_none _

theorem seriesOfCol_sorted (dates : List ℕ) (vals : List ℚ) :
    (seriesOfCol dates vals).Sorted dateLE :=
  List.sorted_insertionSort dateLE _

theorem seriesOfCol_wellFormed {dates : List ℕ} {vals : List ℚ}
    (h : (dates.zip vals).Pairwise (fun a b => a.1 < b.1))
    (hv : ∀ v ∈ vals, 0 < v) :
    wellFormedSeries (seriesOfCol dates vals) := by
  have hsorted : (dates.zip vals).Sorted dateLE :=
    List.Pairwise.imp (fun hab => le_of_lt hab) h
  rw [seriesOfCol, hsorted.insertionSort_eq]
  exact ⟨h, fun p hp => hv p.2 (List.of_mem_zip hp).2⟩

theorem getCol_mem {df : DataFrame} {c : String} {vals : List ℚ}
    (h : df.getCol c = some vals) : ∃ q ∈ df.cols, q.2 = vals := by
  simp only [DataFrame.getCol, Option.map_eq_some'] at h
  obtain ⟨q, hq, hsnd⟩ := h
  exact ⟨q, List.mem_of_find?_eq_some hq, hsnd⟩

theorem fetch_investing_some {hinv : Bool} {raw : RawResult} {s : Series}
    (h : fetch_prices_investing hinv raw = some s) :
    ∃ df vals, raw = Except.ok (some df) ∧ df.getCol "Close" = some vals ∧
      s = seriesOfCol df.dates vals := by
  cases hinv with
  | false => simp [fetch_prices_investing] at h
  | true =>
    cases raw with
    | error e => simp [fetch_prices_investing] at h
    | ok o =>
      cases o with
      | none => simp [fetch_prices_investing] at h
      | some df =>
        simp only [fetch_prices_investing, Bool.not_true,
          Bool.false_eq_true, if_false] at h
        split at h
        · exact absurd h (by simp)
        · split at h
          · exact absurd h (by simp)
          · exact ⟨df, _, rfl, by assumption, (Option.some.injEq .. ▸ h).symm⟩

theorem fetch_yf_some {raw : RawResult} {s : Series}
    (h : fetch_prices_yf raw = some s) :
    ∃ df vals, raw = Except.ok (some df) ∧
      (df.getCol "Adj Close" = some vals ∨ df.getCol "Close" = some vals) ∧
      s = seriesOfCol df.dates vals := by
  cases raw with
  | error e => simp [fetch_prices_yf] at h
  | ok o =>
    cases o with
    | none => simp [fetch_prices_yf] at h
    | some df =>
      simp only [fetch_prices_yf] at h
      split at h
      · exact absurd h (by simp)
      · split at h
        · refine ⟨df, _, rfl, Or.inl (by assumption),
            (Option.some.injEq .. ▸ h).symm⟩
        · split at h
          · refine ⟨df, _, rfl, Or.inr (by assumption),
              (Option.some.injEq .. ▸ h).symm⟩
          · exact absurd h (by simp)

/-! ### Claims -/

/-- C1: for every average-absolute-move value `m ≥ 0`, ratings `g, c` in
`[0, 5]` and non-negative portfolio amount `P`, the sizing computation
returns `finalPercent = clamp_[0,100](30 - 1.5 * (m / 0.10) - 3 * (g + c))`
together with the two reduction terms, and
`finalAmount = finalPercent / 100 * P` exactly; in particular for
`m = 0.50`, `g = 2`, `c = 1`, `P = 5000` it returns `finalPercent = 13.5`
and `finalAmount = 675`. -/
theorem C1_sizing_formula (m P : ℚ) (g c : ℤ) (hm : 0 ≤ m)
    (hg0 : 0 ≤ g) (hg5 : g ≤ 5) (hc0 : 0 ≤ c) (hc5 : c ≤ 5) (hP : 0 ≤ P) :
    (position_pct_from_rule m g c).1 = specFinalPercent m g c ∧
    (position_pct_from_rule m g c).2.1 = (3 / 2) * (m / (1 / 10)) ∧
    (position_pct_from_rule m g c).2.2 = 3 * ((g : ℚ) + (c : ℚ)) ∧
    pos_eur P (position_pct_from_rule m g c).1 =
      (position_pct_from_rule m g c).1 / 100 * P ∧
    position_pct_from_rule (1 / 2) 2 1 = (27 / 2, 15 / 2, 9) ∧
    pos_eur 5000 (27 / 2) = 675 := by
  refine ⟨?_, rfl, rfl, ?_, ?_, ?_⟩
  · simp only [position_pct_from_rule, specFinalPercent, base_pct,
      per_step_reduce, step_pct, vol_penalty_per_point]
  · simp only [pos_eur]
    ring
  · simp only [position_pct_from_rule, base_pct, per_step_reduce, step_pct,
      vol_penalty_per_point, Prod.mk.injEq]
    norm_num [max_def, min_def]
  · simp only [pos_eur]
    norm_num

/-- Witness for `C1_sizing_formula` at the spec's end-to-end example. -/
theorem C1_sizing_formula_witness :
    (position_pct_from_rule (1 / 2) 2 1).1 = specFinalPercent (1 / 2) 2 1 :=
  (C1_sizing_formula (1 / 2) 5000 2 1 (by norm_num) (by decide) (by decide)
    (by decide) (by decide) (by norm_num)).1

/-- C2: for every input the returned `finalPercent` lies in `[0, 100]`, and
it is antitone in each reduction source: increasing the average move
(hence the average-move reduction) or the rating sum (hence the slider
reduction) never increases `finalPercent`. -/
theorem C2_clamped_and_antitone (m m' : ℚ) (g g' c c' : ℤ) :
    (0 ≤ (position_pct_from_rule m g c).1 ∧
      (position_pct_from_rule m g c).1 ≤ 100) ∧
    (m ≤ m' →
      (position_pct_from_rule m' g c).1 ≤ (position_pct_from_rule m g c).1) ∧
    ((g : ℚ) + (c : ℚ) ≤ (g' : ℚ) + (c' : ℚ) →
      (position_pct_from_rule m g' c').1 ≤ (position_pct_from_rule m g c).1)
    := by
  simp only [position_pct_from_rule, base_pct, per_step_reduce, step_pct,
    vol_penalty_per_point]
  refine ⟨⟨le_max_left _ _, max_le (by norm_num) (min_le_left _ _)⟩, ?_, ?_⟩
  · intro h
    exact clamp_le_clamp (by linarith)
  · intro h
    exact clamp_le_clamp (by linarith)

/-- Witness for `C2_clamped_and_antitone` at concrete inputs. -/
theorem C2_clamped_and_antitone_witness :
    (position_pct_from_rule 3 1 0).1 ≤ (position_pct_from_rule 1 1 0).1 :=
  ((C2_clamped_and_antitone 1 3 1 1 0 0).2.1 (by norm_num))

/-- C3: for every price series of length at least 11, the
average-absolute-move metric equals exactly the mean of the absolute
day-over-day percentage changes over the last 11 closes (10 returns),
expressed in percent, and that value is non-negative; for a series of
fewer than 11 points the metric yields `none`, never a numeric result. -/
theorem C3_avg_abs_move (closes : List ℚ) :
    (11 ≤ closes.length →
      avg_abs_move_pct closes 10 = some (specAvgAbsMove closes) ∧
      0 ≤ specAvgAbsMove closes) ∧
    (closes.length < 11 → avg_abs_move_pct closes 10 = none) := by
  constructor
  · intro hlen
    have hrec : (closes.drop (closes.length - 11)).length = 11 := by
      rw [List.length_drop]
      omega
    have hch : (pctChanges (closes.drop (closes.length - 11))).length = 10 := by
      rw [pctChanges_length, hrec]
    constructor
    · have hcond : ¬ (closes.length < 10 + 1) := by omega
      have hfun : ((fun x : ℚ => |x|) ∘ fun r : ℚ => r * 100) =
          fun r : ℚ => |r| * 100 := by
        funext r
        simp only [Function.comp_apply, abs_mul]
        norm_num
      have hd : closes.length - (10 + 1) = closes.length - 11 := by norm_num
      simp only [avg_abs_move_pct, if_neg hcond, specAvgAbsMove,
        List.map_map, List.length_map, hd, hch, hfun]
      norm_num
    · simp only [specAvgAbsMove]
      apply div_nonneg _ (by norm_num)
      apply List.sum_nonneg
      intro x hx
      rcases List.mem_map.mp hx with ⟨r, _, rfl⟩
      positivity
  · intro hlen
    have hcond : closes.length < 10 + 1 := by omega
    simp only [avg_abs_move_pct, if_pos hcond]

/-- Witness for `C3_avg_abs_move` on concrete short and long series. -/
theorem C3_avg_abs_move_witness :
    avg_abs_move_pct (List.replicate 11 1) 10 =
      some (specAvgAbsMove (List.replicate 11 1)) ∧
    avg_abs_move_pct [1, 2, 3] 10 = none :=
  ⟨((C3_avg_abs_move (List.replicate 11 1)).1 (by decide)).1,
    (C3_avg_abs_move [1, 2, 3]).2 (by decide)⟩

/-- C4: whenever the Investing.com path yields an unusable result (an
exception, no data, or a series shorter than 12 points) while the Yahoo
Finance call yields a usable series, the resilient fetch returns exactly
the Yahoo series with the source label "Yahoo Finance". -/
theorem C4_fallback_to_yahoo (inv : InvOracle) (yf : YfOracle) (hinv : Bool)
    (t ctry : String) (lb : ℕ) (s : Series)
    (hprim : usable (fetch_prices_investing hinv (inv t ctry lb)) = false)
    (hsec : fetch_prices_yf (yf t "2y") = some s) (hlen : 12 ≤ s.length) :
    fetch_prices_resilient inv yf hinv t ctry lb =
      (some s, "Yahoo Finance") := by
  simp only [fetch_prices_resilient, hprim, hsec, Bool.false_eq_true,
    if_false]
  simp [usable, hlen]

/-- Witness for `C4_fallback_to_yahoo`: a throwing primary and a
12-row Yahoo frame. -/
theorem C4_fallback_to_yahoo_witness :
    fetch_prices_resilient (fun _ _ _ => Except.error ())
      (fun _ _ => Except.ok (some goodFrame)) true "MSFT" "united states"
      365 = (some goodSeries, "Yahoo Finance") :=
  C4_fallback_to_yahoo (fun _ _ _ => Except.error ())
    (fun _ _ => Except.ok (some goodFrame)) true "MSFT" "united states" 365
    goodSeries rfl rfl (by decide)

/-- C5: any exception inside a provider call is caught and treated as a
failed attempt (the fetcher returns `none`), and when both providers are
exhausted the resilient fetch returns the explicit absent result
`(none, "None")` instead of raising. -/
theorem C5_never_raises (inv : InvOracle) (yf : YfOracle) (hinv : Bool)
    (t ctry : String) (lb : ℕ) :
    fetch_prices_investing hinv (Except.error ()) = none ∧
    fetch_prices_yf (Except.error ()) = none ∧
    (usable (fetch_prices_investing hinv (inv t ctry lb)) = false →
      usable (fetch_prices_yf (yf t "2y")) = false →
      fetch_prices_resilient inv yf hinv t ctry lb = (none, "None")) := by
  refine ⟨?_, rfl, ?_⟩
  · cases hinv <;> rfl
  · intro h1 h2
    simp only [fetch_prices_resilient, h1, h2, Bool.false_eq_true, if_false]

/-- Witness for `C5_never_raises`: both providers throw on every call. -/
theorem C5_never_raises_witness :
    fetch_prices_resilient (fun _ _ _ => Except.error ())
      (fun _ _ => Except.error ()) true "MSFT" "united states" 365 =
      (none, "None") :=
  (C5_never_raises (fun _ _ _ => Except.error ())
    (fun _ _ => Except.error ()) true "MSFT" "united states" 365).2.2 rfl rfl

/-- C6 counterexample: the fetch makes a single attempt per provider, so a
provider that fails on its first attempt and would succeed on its second
(N = 2, within the claimed maximum of 3) still ends in `(none, "None")`;
the claimed retry behaviour does not exist in the code. -/
theorem C6_counterexample :
    fetch_prices_resilient_seq
      (fun n => if n = 0 then Except.error () else Except.ok (some goodFrame))
      (fun _ => Except.error ()) true "MSFT" "united states" 30 =
      (none, "None") ∧
    usable (fetch_prices_investing true
      ((fun n => if n = 0 then Except.error ()
        else Except.ok (some goodFrame)) 1)) = true :=
  ⟨rfl, rfl⟩

/-- C6 amended: the resilient fetch consults only the first attempt of
each provider — it runs no retry loop, iterates no window list, and
pauses never: the result is fully determined by each provider's first
response for the single requested lookback window. -/
theorem C6_single_attempt (invSeq invSeq' yfSeq yfSeq' : ℕ → RawResult)
    (hinv : Bool) (t ctry : String) (lb : ℕ)
    (h0 : invSeq 0 = invSeq' 0) (k0 : yfSeq 0 = yfSeq' 0) :
    fetch_prices_resilient_seq invSeq yfSeq hinv t ctry lb =
      fetch_prices_resilient_seq invSeq' yfSeq' hinv t ctry lb := by
  simp only [fetch_prices_resilient_seq, fetch_prices_resilient, h0, k0]

/-- Witness for `C6_single_attempt`: two provider traces that agree on the
first attempt only give identical fetch results. -/
theorem C6_single_attempt_witness :
    fetch_prices_resilient_seq
      (fun n => if n = 0 then Except.error () else Except.ok (some goodFrame))
      (fun _ => Except.error ()) true "MSFT" "united states" 30 =
      fetch_prices_resilient_seq (fun _ => Except.error ())
        (fun _ => Except.error ()) true "MSFT" "united states" 30 :=
  C6_single_attempt
    (fun n => if n = 0 then Except.error () else Except.ok (some goodFrame))
    (fun _ => Except.error ()) (fun _ => Except.error ())
    (fun _ => Except.error ()) true "MSFT" "united states" 30 rfl rfl

/-- C10: the lookback window is passed only to the Investing.com path;
whenever that path is unusable the result is built from the Yahoo call at
the fixed period "2y", so the fallback does not depend on the requested
lookback window. -/
theorem C10_fallback_period_fixed (inv : InvOracle) (yf : YfOracle)
    (hinv : Bool) (t ctry : String) (lb lb1 lb2 : ℕ)
    (h : usable (fetch_prices_investing hinv (inv t ctry lb)) = false)
    (h1 : usable (fetch_prices_investing hinv (inv t ctry lb1)) = false)
    (h2 : usable (fetch_prices_investing hinv (inv t ctry lb2)) = false) :
    fetch_prices_resilient inv yf hinv t ctry lb =
      (if usable (fetch_prices_yf (yf t "2y")) then
        (fetch_prices_yf (yf t "2y"), "Yahoo Finance")
      else (none, "None")) ∧
    fetch_prices_resilient inv yf hinv t ctry lb1 =
      fetch_prices_resilient inv yf hinv t ctry lb2 := by
  constructor
  · simp only [fetch_prices_resilient, h, Bool.false_eq_true, if_false]
  · simp only [fetch_prices_resilient, h1, h2, Bool.false_eq_true, if_false]

/-- Witness for `C10_fallback_period_fixed` with a throwing primary and
two different lookback windows. -/
theorem C10_fallback_period_fixed_witness :
    fetch_prices_resilient (fun _ _ _ => Except.error ())
      (fun _ _ => Except.ok (some goodFrame)) true "MSFT" "united states"
      30 =
      fetch_prices_resilient (fun _ _ _ => Except.error ())
        (fun _ _ => Except.ok (some goodFrame)) true "MSFT" "united states"
        90 :=
  (C10_fallback_period_fixed (fun _ _ _ => Except.error ())
    (fun _ _ => Except.ok (some goodFrame)) true "MSFT" "united states"
    365 30 90 rfl rfl rfl).2

/-- C7: every non-absent series returned by the resilient fetch has at
least 12 points — strictly more than the 11 the metric requires — so the
metric computation on a fetched series never yields `none` and the
handler's "Could not compute 10-day average absolute move" branch is
unreachable. -/
theorem C7_fetched_series_long_enough (inv : InvOracle) (yf : YfOracle)
    (hinv : Bool) (t ctry : String) (lb : ℕ) (P : ℚ) (g c : ℤ) :
    (∀ s src, fetch_prices_resilient inv yf hinv t ctry lb = (some s, src) →
      12 ≤ s.length ∧ avg_abs_move_pct (s.map Prod.snd) 10 ≠ none) ∧
    calculate_button_handler inv yf hinv t P g c ≠ Outcome.metricError := by
  constructor
  · intro s src hs
    have h1 : (fetch_prices_resilient inv yf hinv t ctry lb).1 = some s := by
      rw [hs]
    have hlen := resilient_fst_some_length h1
    refine ⟨hlen, avg_abs_move_pct_isSome ?_⟩
    rw [List.length_map]
    omega
  · simp only [calculate_button_handler]
    cases hr : (fetch_prices_resilient inv yf hinv (normalizeTicker t)
        "united states" 365).1 with
    | none => simp [hr]
    | some prices =>
      have hlen := resilient_fst_some_length hr
      have h11 : ¬ (prices.length < 11) := by omega
      have hmet := avg_abs_move_pct_isSome
        (show 11 ≤ (prices.map Prod.snd).length by
          rw [List.length_map]; omega)
      simp only [hr, if_neg h11]
      cases ha : avg_abs_move_pct (prices.map Prod.snd) 10 with
      | none => exact absurd ha hmet
      | some m => simp [ha]

/-- Witness for `C7_fetched_series_long_enough` on a concrete fetched
series. -/
theorem C7_fetched_series_long_enough_witness :
    12 ≤ goodSeries.length ∧
      avg_abs_move_pct (goodSeries.map Prod.snd) 10 ≠ none :=
  (C7_fetched_series_long_enough (fun _ _ _ => Except.ok (some goodFrame))
    (fun _ _ => Except.error ()) true "MSFT" "united states" 365 5000 0
    0).1 goodSeries "Investing.com" rfl

/-- C8 counterexample: with an empty ticker the handler is not rejected
before the network call — the provider oracles are consulted and fully
determine the outcome: well-behaved providers give the complete sizing
result, failing providers give the data-unavailable message. -/
theorem C8_counterexample :
    calculate_button_handler (fun _ _ _ => Except.ok (some goodFrame))
      (fun _ _ => Except.error ()) true "" 5000 0 0 =
      Outcome.success "Investing.com" 0 30 0 0 1500 ∧
    calculate_button_handler (fun _ _ _ => Except.error ())
      (fun _ _ => Except.error ()) true "" 5000 0 0 =
      Outcome.notEnoughData := by
  constructor
  · have hfetch : fetch_prices_resilient
        (fun _ _ _ => Except.ok (some goodFrame))
        (fun _ _ => Except.error ()) true (normalizeTicker "")
        "united states" 365 = (some goodSeries, "Investing.com") := rfl
    have havg : avg_abs_move_pct (goodSeries.map Prod.snd) 10 = some 0 := by
      norm_num [avg_abs_move_pct, goodSeries, pctChanges]
    have hpos : position_pct_from_rule 0 0 0 = (30, 0, 0) := by
      simp only [position_pct_from_rule, base_pct, per_step_reduce, step_pct,
        vol_penalty_per_point, Prod.mk.injEq]
      norm_num [max_def, min_def]
    have h11 : ¬ (goodSeries.length < 11) := by decide
    simp only [calculate_button_handler, hfetch, if_neg h11, havg, hpos,
      pos_eur]
    norm_num
  · rfl

/-- C8 amended: the program performs no input validation at all — for the
empty ticker (as for any other) the handler invokes the resilient fetch
and its outcome is entirely determined by the fetch result: absent data
gives the not-enough-data message and a usable series gives the full
sizing result; there is no InvalidInput rejection (out-of-range ratings
and negative amounts are prevented only by the UI widgets). -/
theorem C8_no_input_validation (inv : InvOracle) (yf : YfOracle)
    (hinv : Bool) (P : ℚ) (g c : ℤ) :
    ((fetch_prices_resilient inv yf hinv "" "united states" 365).1 = none →
      calculate_button_handler inv yf hinv "" P g c =
        Outcome.notEnoughData) ∧
    (∀ s src,
      fetch_prices_resilient inv yf hinv "" "united states" 365 =
        (some s, src) →
      (calculate_button_handler inv yf hinv "" P g c).isSuccess = true) := by
  have htick : normalizeTicker "" = "" := rfl
  constructor
  · intro hnone
    simp only [calculate_button_handler, htick, hnone]
  · intro s src hs
    have h1 : (fetch_prices_resilient inv yf hinv "" "united states"
        365).1 = some s := by rw [hs]
    have hlen := resilient_fst_some_length h1
    have h11 : ¬ (s.length < 11) := by omega
    have hmet := avg_abs_move_pct_isSome
      (show 11 ≤ (s.map Prod.snd).length by rw [List.length_map]; omega)
    simp only [calculate_button_handler, htick, h1, if_neg h11]
    cases ha : avg_abs_move_pct (s.map Prod.snd) 10 with
    | none => exact absurd ha hmet
    | some m => simp [ha, Outcome.isSuccess]

/-- Witness for `C8_no_input_validation` with concrete well-behaved
providers and the empty ticker. -/
theorem C8_no_input_validation_witness :
    (calculate_button_handler (fun _ _ _ => Except.ok (some goodFrame))
      (fun _ _ => Except.error ()) true "" 5000 0 0).isSuccess = true :=
  (C8_no_input_validation (fun _ _ _ => Except.ok (some goodFrame))
    (fun _ _ => Except.error ()) true 5000 0 0).2 goodSeries
    "Investing.com" rfl

/-- C9 counterexample: the fetchers perform no validation of the provider
data — a frame whose `Close` column holds the non-positive price `-1`
passes straight through `fetch_prices_investing`, so the produced series
is not a well-formed PriceSeries. -/
theorem C9_counterexample :
    fetch_prices_investing true (Except.ok (some badValueFrame)) =
      some [((0 : ℕ), (-1 : ℚ)), (1, 1), (2, 1)] ∧
    ¬ wellFormedSeries [((0 : ℕ), (-1 : ℚ)), (1, 1), (2, 1)] := by
  refine ⟨rfl, ?_⟩
  rintro ⟨-, hpos⟩
  have h := hpos (0, -1) (by simp)
  norm_num at h

/-- C9 amended: every series either fetcher produces is sorted
non-decreasingly by date (the fetchers sort the index), but strict date
increase, positivity and absence of bad values are not enforced: the
produced series is well-formed only when the provider's raw frame already
is. -/
theorem C9_sorted_not_validated (hinv : Bool) (raw : RawResult) :
    (∀ s, fetch_prices_investing hinv raw = some s →
      s.Sorted dateLE ∧
      ((∀ df, raw = Except.ok (some df) → wellFormedFrame df) →
        wellFormedSeries s)) ∧
    (∀ s, fetch_prices_yf raw = some s →
      s.Sorted dateLE ∧
      ((∀ df, raw = Except.ok (some df) → wellFormedFrame df) →
        wellFormedSeries s)) := by
  constructor
  · intro s hs
    obtain ⟨df, vals, rfl, hcol, rfl⟩ := fetch_investing_some hs
    refine ⟨seriesOfCol_sorted _ _, fun hwf => ?_⟩
    obtain ⟨q, hqmem, hqv⟩ := getCol_mem hcol
    obtain ⟨hpair, hval⟩ := hwf df rfl q hqmem
    exact seriesOfCol_wellFormed (hqv ▸ hpair) (hqv ▸ hval)
  · intro s hs
    obtain ⟨df, vals, rfl, hcol, rfl⟩ := fetch_yf_some hs
    refine ⟨seriesOfCol_sorted _ _, fun hwf => ?_⟩
    have hone : ∃ q ∈ df.cols, q.2 = vals := by
      rcases hcol with hcol | hcol
      · exact getCol_mem hcol
      · exact getCol_mem hcol
    obtain ⟨q, hqmem, hqv⟩ := hone
    obtain ⟨hpair, hval⟩ := hwf df rfl q hqmem
    exact seriesOfCol_wellFormed (hqv ▸ hpair) (hqv ▸ hval)

/-- Witness for `C9_sorted_not_validated`: a well-formed provider frame
gives a sorted, well-formed series. -/
theorem C9_sorted_not_validated_witness :
    goodSeries.Sorted dateLE ∧ wellFormedSeries goodSeries := by
  have h := (C9_sorted_not_validated true
    (Except.ok (some goodFrame))).1 goodSeries rfl
  refine ⟨h.1, h.2 ?_⟩
  intro df hdf
  cases hdf
  intro q hq
  simp only [goodFrame, List.mem_singleton] at hq
  subst hq
  constructor
  · simp only [goodFrame]
    norm_num [List.pairwise_cons]
  · intro v hv
    have hv1 : v = 1 := by simpa [goodFrame] using hv
    subst hv1
    norm_num
